import Mathlib

/-!
Shallow embedding of the proof-parameter fetch pipeline
(`utils/paramfetch/src/lib.rs`): manifest selection, cache-path
resolution, digest checking with trust bypass, content-addressed
fetch with retry, and per-entry fetch-verify orchestration with
error aggregation.

Modelling conventions:
* Machine integers (`u64`, `usize`) are `Nat`; no arithmetic here can overflow.
* Environment variables are `Option String` fields of an explicit `Env`.
* The blake2b hash (external crate `blake2b_simd`) is a parameter
  `hashHex : FileContent → String` standing for `hash.to_hex()`.
* Fallible IO is `Except`; log output (`warn!`) is collected in a list.
* The file system is an association list from path to byte content;
  each fetch-verify unit owns a distinct path, so the concurrent
  `tokio::task::spawn` units are run sequentially in manifest order.
-/

deriving instance DecidableEq for Except

namespace Paramfetch

/-- `const PARAM_DIR: &str = "filecoin-proof-parameters"`. -/
def PARAM_DIR : String := "filecoin-proof-parameters"

/-- The warning text logged by the `TRUST_PARAMS` bypass in `check_file`. -/
def TRUST_WARN : String := "Assuming parameter files are okay. Do not use in production!"

/-- File contents as a byte list (`Nat` for bytes; values never exceed 255 in use). -/
abbrev FileContent := List Nat

/-- Rust `str::ends_with(pat)`: the string's characters end with `pat`'s.
(Stated on the character lists so that the kernel can evaluate it; for the
ASCII manifest names involved this coincides with Rust's byte-suffix test.) -/
def stringEndsWith (s pat : String) : Bool :=
  pat.data.isSuffixOf s.data

/-- Rust `&s[..n]` on a hex string: the first `n` characters. -/
def stringTake (s : String) (n : Nat) : String :=
  ⟨s.data.take n⟩

/-- `struct ParameterData { cid, digest, sector_size }` from the manifest JSON. -/
structure ParameterData where
  cid : String
  digest : String
  sector_size : Nat
deriving Repr, DecidableEq

/-- `enum SectorSizeOpt { All, Keys, Size(SectorSize) }`; the sector size is its `u64` value. -/
inductive SectorSizeOpt where
  | All
  | Keys
  | Size (n : Nat)

/-- The filter closure inside `get_params`:
`SectorSizeOpt::Keys => !name.ends_with("params")`,
`SectorSizeOpt::Size(size) => size as u64 == info.sector_size || !name.ends_with(".params")`,
`SectorSizeOpt::All => true`. -/
def selectEntry (storage_size : SectorSizeOpt) (name : String) (info : ParameterData) : Bool :=
  match storage_size with
  | .Keys => !stringEndsWith name "params"
  | .Size size => size == info.sector_size || !stringEndsWith name ".params"
  | .All => true

/-- The process environment variables read by the module. -/
structure Env where
  /-- `FIL_PROOFS_PARAMETER_CACHE` -/
  dirEnv : Option String
  /-- `TRUST_PARAMS` -/
  trustEnv : Option String
deriving Repr, DecidableEq

/-- `fn param_dir(data_dir: &Path) -> PathBuf`: the `DIR_ENV` value when set,
otherwise `data_dir.join(PARAM_DIR)`. -/
def param_dir (env : Env) (data_dir : String) : String :=
  match env.dirEnv with
  | some v => v
  | none => data_dir ++ "/" ++ PARAM_DIR

/-- `pub fn set_proofs_parameter_cache_dir_env(data_dir: &Path)`:
`std::env::set_var(DIR_ENV, param_dir(data_dir))`. -/
def set_proofs_parameter_cache_dir_env (env : Env) (data_dir : String) : Env :=
  { env with dirEnv := some (param_dir env data_dir) }

/-- `io::ErrorKind`, restricted to the kinds the module produces or inspects. -/
inductive IoErrorKind where
  | NotFound
  | Other
deriving Repr, DecidableEq

/-- `io::Error`: a kind plus a display message. -/
structure IoError where
  kind : IoErrorKind
  msg : String
deriving Repr, DecidableEq

/-- `async fn check_file(path, info) -> Result<(), io::Error>`, with the log
output (`warn!`) returned alongside. `file` is the content found at `path`
(`none`: `File::open` fails with `NotFound`). The hash `hashHex` stands for
the hex encoding of the blake2b state fed the whole file, and the code takes
`&str_sum[..32]` before comparing with `info.digest`. -/
def check_file (hashHex : FileContent → String) (trustEnv : Option String)
    (file : Option FileContent) (info : ParameterData) :
    Except IoError Unit × List String :=
  if trustEnv = some "1" then
    (.ok (), [TRUST_WARN])
  else
    match file with
    | none => (.error ⟨.NotFound, "No such file or directory"⟩, [])
    | some content =>
      let str_sum := stringTake (hashHex content) 32
      if str_sum = info.digest then
        (.ok (), [])
      else
        (.error ⟨.Other,
          "Checksum mismatch in param file. (" ++ str_sum ++ " != " ++ info.digest ++ ")"⟩, [])

/-! ## Artifact fetcher, attempt level (`fetch_params_inner` and the retry loop) -/

/-- One HTTP GET outcome: the request itself fails (`req.await` returns Err),
or a response arrives with a status, an optional declared content length
(`response.len()` is `Option<usize>`) and the body bytes that get written. -/
inductive HttpResult where
  | netError (msg : String)
  | response (statusSuccess : Bool) (contentLen : Option Nat) (body : FileContent)
deriving Repr, DecidableEq

/-- The error cases `fetch_params_inner` can produce, in program order. -/
inductive FetchError where
  /-- `req.await.map_err(...)` failed: transport-level network error. -/
  | net (msg : String)
  /-- `ensure!(response.status().is_success())` failed. -/
  | status
  /-- `File::create(path)` failed: local filesystem error. -/
  | fsCreate (msg : String)
  /-- `tokio::io::copy` failed: local filesystem write error. -/
  | fsWrite (msg : String)
  /-- `std::fs::metadata(path)` failed. -/
  | fsMetadata (msg : String)
  /-- `ensure!(Some(file_metadata.len() as usize) == content_len)` failed. -/
  | lenMismatch
deriving Repr, DecidableEq

/-- The local conditions of a single fetch attempt: the HTTP outcome and
whether each filesystem step succeeds. -/
structure AttemptEnv where
  http : HttpResult
  createOk : Bool
  writeOk : Bool
  metadataOk : Bool
deriving Repr, DecidableEq

/-- `async fn fetch_params_inner(url, path) -> Result<(), anyhow::Error>`:
GET, require a success status, record `content_len = response.len()`, create
the file, copy the body into it, then require
`Some(file_metadata.len() as usize) == content_len`. On success the written
body is returned (the file at `path` holds it). -/
def fetch_params_inner (a : AttemptEnv) : Except FetchError FileContent :=
  match a.http with
  | .netError m => .error (.net m)
  | .response statusSuccess contentLen body =>
    if !statusSuccess then .error .status
    else if !a.createOk then .error (.fsCreate "could not create file")
    else if !a.writeOk then .error (.fsWrite "could not write file")
    else if !a.metadataOk then .error (.fsMetadata "could not stat file")
    else if some body.length = contentLen then .ok body
    else .error .lenMismatch

/-- The retry classification used by `fetch_params`: the closure body is
`Ok(fetch_params_inner(&url, path).await?)`, and the `?` converts any
`anyhow::Error` through `From<E> for backoff::Error<E>`, which wraps every
error as `backoff::Error::Transient`. So every attempt error is transient. -/
def isTransient (_e : FetchError) : Bool := true

/-- `async fn fetch_params(path, info)`: `retry(ExponentialBackoff::default(), ...)`.
`ExponentialBackoff::default()` bounds the total elapsed time, so the loop makes
finitely many attempts; `attempts` lists the environment seen by each successive
attempt. The loop stops at the first success, retries transient errors while
attempts remain, and otherwise returns the error. -/
def fetch_params : AttemptEnv → List AttemptEnv → Except FetchError FileContent
  | a, [] => fetch_params_inner a
  | a, b :: rest =>
    match fetch_params_inner a with
    | .ok body => .ok body
    | .error e => if isTransient e then fetch_params b rest else .error e

/-! ## Coordinator level (`fetch_verify_params` and `get_params`)

At this level the whole retry loop of `fetch_params` is abstracted by an
oracle `net : String → FetchResult` giving, per content id, the loop's final
outcome: either the body that ended up written at the path, or the final
error (with what, if anything, a partial attempt left in the file). -/

/-- Final outcome of `fetch_params` for one content id. -/
inductive FetchResult where
  /-- The retry loop returned `Ok`; `body` is what was written at the path. -/
  | success (body : FileContent)
  /-- Retries exhausted with an error; `written` is what a partial attempt
  left at the path (`none`: the file was never created). -/
  | failure (msg : String) (written : Option FileContent)
deriving Repr, DecidableEq

/-- The file system, path → content, most recent write first. -/
abbrev Fs := List (String × FileContent)

/-- Look a path up in the file system. -/
def fsGet : Fs → String → Option FileContent
  | [], _ => none
  | (k, v) :: rest, p => if k = p then some v else fsGet rest p

/-- Write `v` at path `k` (the new entry shadows any older one). -/
def fsSet (fs : Fs) (k : String) (v : FileContent) : Fs := (k, v) :: fs

/-- State threaded through a `get_params` invocation: the file system, the
number of network fetch operations performed, and the log output. -/
structure RunState where
  fs : Fs
  fetches : Nat
  warnings : List String
deriving Repr, DecidableEq

/-- The path `param_dir(data_dir).join(name)` owned by one entry's task. -/
def entryPath (env : Env) (data_dir : String) (name : String) : String :=
  param_dir env data_dir ++ "/" ++ name

/-- `async fn fetch_verify_params(data_dir, name, info)`: check the file;
on `Ok` return at once (no fetch); otherwise (logging a warning when the
check error is not `NotFound`) fetch and re-check. -/
def fetch_verify_params (hashHex : FileContent → String) (env : Env)
    (net : String → FetchResult) (data_dir name : String) (info : ParameterData)
    (st : RunState) : Except String Unit × RunState :=
  let path := entryPath env data_dir name
  let first := check_file hashHex env.trustEnv (fsGet st.fs path) info
  let st := { st with warnings := st.warnings ++ first.2 }
  match first.1 with
  | .ok _ => (.ok (), st)
  | .error e =>
    let st :=
      if e.kind ≠ .NotFound then
        { st with warnings := st.warnings ++ ["Error checking file: " ++ e.msg] }
      else st
    match net info.cid with
    | .failure m written =>
      let fs := match written with
        | some b => fsSet st.fs path b
        | none => st.fs
      (.error m, { st with fs := fs, fetches := st.fetches + 1 })
    | .success body =>
      let st := { st with fs := fsSet st.fs path body, fetches := st.fetches + 1 }
      let second := check_file hashHex env.trustEnv (fsGet st.fs path) info
      let st := { st with warnings := st.warnings ++ second.2 }
      match second.1 with
      | .ok _ => (.ok (), st)
      | .error e => (.error e.msg, st)

/-- The spawned tasks, joined in order: one `fetch_verify_params` per selected
entry. Each task owns the distinct path named by its manifest key, so running
them in sequence observes the same per-path file contents as the concurrent
original. Returns each task's inner `Result` in order. -/
def runTasks (hashHex : FileContent → String) (env : Env)
    (net : String → FetchResult) (data_dir : String) :
    List (String × ParameterData) → RunState → List (Except String Unit) × RunState
  | [], st => ([], st)
  | (name, info) :: rest, st =>
    let r := fetch_verify_params hashHex env net data_dir name info st
    let rs := runTasks hashHex env net data_dir rest r.2
    (r.1 :: rs.1, rs.2)

/-- `t.await` on a `tokio::task::JoinHandle` yields `Err(join_error)` only when
the task panicked or was cancelled; a task that ran `fetch_verify_params` to
completion yields `Ok(inner)` whatever `inner` is. None of the tasks here
panics, so the join result is always `Ok`. -/
def awaitTask (inner : Except String Unit) : Except String (Except String Unit) :=
  .ok inner

/-- The error-collection loop of `get_params`:
`for t in tasks { if let Err(err) = t.await { errors.push(err); } }` —
only join-level errors are pushed; the task's own `Result` is discarded. -/
def collectErrors (results : List (Except String Unit)) : List String :=
  results.filterMap fun r =>
    match awaitTask r with
    | .error err => some err
    | .ok _ => none

/-- `pub async fn get_params(data_dir, param_json, storage_size)`:
create the cache directory, parse the manifest (`parsed` is the
`serde_json::from_str` outcome for `param_json`), filter the entries by
`storage_size`, spawn one task per entry, join them collecting errors, and
return `Ok` when the collection is empty, otherwise one aggregated error. -/
def get_params (hashHex : FileContent → String) (env : Env)
    (net : String → FetchResult) (data_dir : String) (createDirOk : Bool)
    (parsed : Except String (List (String × ParameterData)))
    (storage_size : SectorSizeOpt) (st : RunState) : Except String Unit × RunState :=
  if !createDirOk then (.error "could not create parameter directory", st)
  else
    match parsed with
    | .error e => (.error e, st)
    | .ok params =>
      let selected := params.filter fun p => selectEntry storage_size p.1 p.2
      let run := runTasks hashHex env net data_dir selected st
      let errors := collectErrors run.1
      if errors.isEmpty then (.ok (), run.2)
      else (.error ("Aggregated errors:\n" ++ String.intercalate "\n\n" errors), run.2)

/-! ## Helper lemmas -/

theorem fsGet_fsSet_self (fs : Fs) (k : String) (v : FileContent) :
    fsGet (fsSet fs k v) k = some v := by
  simp [fsGet, fsSet]

theorem fsGet_fsSet_other (fs : Fs) (k p : String) (v : FileContent) (h : k ≠ p) :
    fsGet (fsSet fs k v) p = fsGet fs p := by
  simp [fsGet, fsSet, h]

theorem check_file_trust_eq (hashHex : FileContent → String) (file : Option FileContent)
    (info : ParameterData) :
    check_file hashHex (some "1") file info = (.ok (), [TRUST_WARN]) := by
  simp [check_file]

theorem check_file_no_trust (hashHex : FileContent → String) (t : Option String)
    (content : FileContent) (info : ParameterData) (h : t ≠ some "1") :
    (check_file hashHex t (some content) info).1 = .ok ()
      ↔ stringTake (hashHex content) 32 = info.digest := by
  simp only [check_file, if_neg h]
  by_cases hd : stringTake (hashHex content) 32 = info.digest <;> simp [hd]

theorem check_file_absent (hashHex : FileContent → String) (t : Option String)
    (info : ParameterData) (h : t ≠ some "1") :
    (check_file hashHex t none info).1 = .error ⟨.NotFound, "No such file or directory"⟩ := by
  simp [check_file, if_neg h]

/-! ## Claim theorems -/

/-- C2: `ForSizeClass(n)` (`SectorSizeOpt::Size n`) selects every entry whose
name does not end in `.params` regardless of its size class, and selects an
entry whose name ends in `.params` iff its `sector_size` equals `n`. In
particular a size-0 `a.vk` entry and a size-512 `b.params` entry are both
selected by `Size 512`, while `Size 1024` selects only `a.vk`. -/
theorem size_class_policy (name : String) (info : ParameterData) (n : Nat) :
    (stringEndsWith name ".params" = false → selectEntry (.Size n) name info = true) ∧
    (stringEndsWith name ".params" = true →
      (selectEntry (.Size n) name info = true ↔ info.sector_size = n)) ∧
    selectEntry (.Size 512) "a.vk" ⟨"Qm1", "00000000000000000000000000000000", 0⟩ = true ∧
    selectEntry (.Size 512) "b.params" ⟨"Qm2", "11111111111111111111111111111111", 512⟩ = true ∧
    selectEntry (.Size 1024) "a.vk" ⟨"Qm1", "00000000000000000000000000000000", 0⟩ = true ∧
    selectEntry (.Size 1024) "b.params" ⟨"Qm2", "11111111111111111111111111111111", 512⟩
      = false := by
  refine ⟨?_, ?_, by decide, by decide, by decide, by decide⟩
  · intro h
    simp [selectEntry, h]
  · intro h
    simp only [selectEntry, h, Bool.not_true, Bool.or_false, beq_iff_eq]
    exact eq_comm

/-- C2 witness: the iff hypothesis discharged at the concrete entry
`b.params` of size class 512 with `n = 512`. -/
theorem size_class_policy_witness :
    stringEndsWith "b.params" ".params" = true ∧
    (selectEntry (.Size 512) "b.params" ⟨"Qm2", "11111111111111111111111111111111", 512⟩ = true
      ↔ (ParameterData.mk "Qm2" "11111111111111111111111111111111" 512).sector_size = 512) :=
  ⟨by decide,
    (size_class_policy "b.params" ⟨"Qm2", "11111111111111111111111111111111", 512⟩ 512).2.1
      (by decide)⟩

/-- C8 counterexample: the two policies do not use the same suffix.
`VerificationKeysOnly` tests `ends_with("params")` while `ForSizeClass`
tests `ends_with(".params")`, so the entry named `xparams` with size class
512 is excluded by `Keys` yet selected by `Size 1024`, although its size
class differs from 1024 — refuting the claim that an entry excluded by
`VerificationKeysOnly` is never included by `ForSizeClass(n)` for `n`
different from its size class. -/
theorem keys_size_suffix_cex :
    selectEntry .Keys "xparams" ⟨"Qm", "d", 512⟩ = false ∧
    selectEntry (.Size 1024) "xparams" ⟨"Qm", "d", 512⟩ = true ∧
    (ParameterData.mk "Qm" "d" 512).sector_size ≠ 1024 := by
  refine ⟨by decide, by decide, by decide⟩

/-- C8 amended: `VerificationKeysOnly` excludes exactly the entries whose
name ends with `"params"` (no dot), while `ForSizeClass(n)` size-restricts
exactly the entries whose name ends with `".params"`; an entry whose name
ends with `".params"` is included by `ForSizeClass(n)` iff its size class is
`n`, but an entry whose name ends with `"params"` and not with `".params"`
is excluded by `VerificationKeysOnly` and still included by `ForSizeClass(n)`
for every `n`. -/
theorem keys_size_suffix_amended (name : String) (info : ParameterData) (n : Nat) :
    (selectEntry .Keys name info = false ↔ stringEndsWith name "params" = true) ∧
    (stringEndsWith name ".params" = true →
      (selectEntry (.Size n) name info = true ↔ info.sector_size = n)) ∧
    (stringEndsWith name "params" = true → stringEndsWith name ".params" = false →
      selectEntry (.Size n) name info = true) := by
  refine ⟨?_, (size_class_policy name info n).2.1, ?_⟩
  · simp [selectEntry]
  · intro _ h2
    simp [selectEntry, h2]

/-- C8 amended witness: hypotheses discharged at the entry `xparams` of
size class 512 with `n = 1024`. -/
theorem keys_size_suffix_amended_witness :
    stringEndsWith "xparams" "params" = true ∧
    stringEndsWith "xparams" ".params" = false ∧
    selectEntry (.Size 1024) "xparams" ⟨"Qm", "d", 512⟩ = true :=
  ⟨by decide, by decide,
    (keys_size_suffix_amended "xparams" ⟨"Qm", "d", 512⟩ 1024).2.2 (by decide) (by decide)⟩

/-- C9: `set_proofs_parameter_cache_dir_env` is idempotent — a second call
with the same data directory resolves the same cache path and leaves the
environment variable with the same value — and a set `FIL_PROOFS_PARAMETER_CACHE`
value takes precedence over `<data_dir>/filecoin-proof-parameters`. -/
theorem cache_dir_env_idempotent (env : Env) (data_dir v : String) :
    set_proofs_parameter_cache_dir_env (set_proofs_parameter_cache_dir_env env data_dir) data_dir
      = set_proofs_parameter_cache_dir_env env data_dir ∧
    param_dir (set_proofs_parameter_cache_dir_env env data_dir) data_dir
      = param_dir env data_dir ∧
    param_dir { env with dirEnv := some v } data_dir = v := by
  refine ⟨?_, rfl, rfl⟩
  simp [set_proofs_parameter_cache_dir_env, param_dir]

/-- C5: with the trust bypass disabled (`TRUST_PARAMS` not set to `"1"`), the
digest check of a present file succeeds iff the hex encoding of the blake2b
hash of the file's bytes, truncated to its first 32 characters, equals the
manifest digest; an absent file is reported as `NotFound`, never as valid. -/
theorem check_file_digest_iff (hashHex : FileContent → String) (t : Option String)
    (content : FileContent) (info : ParameterData) (h : t ≠ some "1") :
    ((check_file hashHex t (some content) info).1 = .ok ()
      ↔ stringTake (hashHex content) 32 = info.digest) ∧
    (check_file hashHex t none info).1 = .error ⟨.NotFound, "No such file or directory"⟩ :=
  ⟨check_file_no_trust hashHex t content info h, check_file_absent hashHex t info h⟩

/-- C5 witness: the `t ≠ some "1"` hypothesis discharged at `t = none` with a
concrete hash function and a matching digest. -/
theorem check_file_digest_iff_witness :
    (none : Option String) ≠ some "1" ∧
    (((check_file (fun _ => "0123456789abcdef0123456789abcdefXYZ") none (some [1])
        ⟨"Qm", "0123456789abcdef0123456789abcdef", 0⟩).1 = .ok ()
      ↔ stringTake ((fun (_ : FileContent) => "0123456789abcdef0123456789abcdefXYZ") [1]) 32
          = (ParameterData.mk "Qm" "0123456789abcdef0123456789abcdef" 0).digest) ∧
    (check_file (fun _ => "0123456789abcdef0123456789abcdefXYZ") none none
        ⟨"Qm", "0123456789abcdef0123456789abcdef", 0⟩).1
      = .error ⟨.NotFound, "No such file or directory"⟩) :=
  ⟨by decide,
    check_file_digest_iff (fun _ => "0123456789abcdef0123456789abcdefXYZ") none [1]
      ⟨"Qm", "0123456789abcdef0123456789abcdef", 0⟩ (by decide)⟩

/-- C3 counterexample: a success-status response with no declared content
length (`response.len()` is `None`) fails
`ensure!(Some(file_metadata.len() as usize) == content_len)` and is treated
as a fetch failure — refuting the claim that a response without a declared
content length is not treated as a failure. -/
theorem no_content_length_fails :
    fetch_params_inner ⟨.response true none [0], true, true, true⟩
      = .error .lenMismatch := by decide

/-- C3 amended: after the copy, the fetch succeeds only when the declared
content length exists and equals the written file's size; both a mismatch
and an absent declared content length are fetch failures, and such a failing
attempt is retried (the loop moves on to the next attempt). -/
theorem content_length_check (contentLen : Option Nat) (body : FileContent)
    (b : AttemptEnv) (rest : List AttemptEnv)
    (h : contentLen ≠ some body.length) :
    (∀ (cl : Option Nat) (bd : FileContent),
      fetch_params_inner ⟨.response true cl bd, true, true, true⟩ = .ok bd
        ↔ cl = some bd.length) ∧
    fetch_params ⟨.response true contentLen body, true, true, true⟩ (b :: rest)
      = fetch_params b rest := by
  constructor
  · intro cl bd
    by_cases hc : some bd.length = cl
    · simp [fetch_params_inner, hc]
    · simp only [fetch_params_inner, Bool.not_true, if_neg hc]
      simp
      exact fun he => hc he.symm
  · have hinner : fetch_params_inner ⟨.response true contentLen body, true, true, true⟩
        = .error .lenMismatch := by
      have hc : ¬ some body.length = contentLen := fun he => h he.symm
      simp [fetch_params_inner, hc]
    simp [fetch_params, hinner, isTransient]

/-- C3 witness: the mismatch hypothesis discharged at a body of length 1
with no declared content length, retried into a succeeding second attempt. -/
theorem content_length_check_witness :
    (none : Option Nat) ≠ some ([0] : FileContent).length ∧
    fetch_params ⟨.response true none [0], true, true, true⟩
        [⟨.response true (some 1) [7], true, true, true⟩]
      = fetch_params ⟨.response true (some 1) [7], true, true, true⟩ [] :=
  ⟨by decide,
    (content_length_check none [0] ⟨.response true (some 1) [7], true, true, true⟩ []
      (by decide)).2⟩

/-- C4 counterexample: a local filesystem failure inside the fetch attempt
(`File::create` fails) is wrapped by the closure's `?` as a transient
`backoff` error and is retried — the second attempt runs and the loop
returns its success — refuting the claim that local filesystem failures are
not retried. -/
theorem fs_failure_retried :
    fetch_params_inner ⟨.response true (some 1) [7], false, true, true⟩
      = .error (.fsCreate "could not create file") ∧
    isTransient (.fsCreate "could not create file") = true ∧
    fetch_params ⟨.response true (some 1) [7], false, true, true⟩
      [⟨.response true (some 1) [7], true, true, true⟩] = .ok [7] := by
  refine ⟨by decide, by decide, by decide⟩

/-- C4 amended: inside the retry loop, every error of a fetch attempt —
transport, status, local filesystem, or length mismatch — is classified
transient and retried while attempts remain; a manifest parse failure is
returned by `get_params` before any task is spawned, so it never enters the
retry loop (the run state, in particular the fetch count, is untouched). -/
theorem retry_classification (a b : AttemptEnv) (rest : List AttemptEnv) (e : FetchError)
    (hashHex : FileContent → String) (env : Env) (net : String → FetchResult)
    (dd msg : String) (policy : SectorSizeOpt) (st : RunState)
    (hfail : fetch_params_inner a = .error e) :
    isTransient e = true ∧
    fetch_params a (b :: rest) = fetch_params b rest ∧
    get_params hashHex env net dd true (.error msg) policy st = (.error msg, st) := by
  refine ⟨rfl, ?_, rfl⟩
  simp [fetch_params, hfail, isTransient]

/-- C4 witness: the failing-attempt hypothesis discharged at a concrete
attempt whose `File::create` fails. -/
theorem retry_classification_witness :
    fetch_params_inner ⟨.response true (some 1) [7], false, true, true⟩
      = .error (.fsCreate "could not create file") ∧
    (isTransient (.fsCreate "could not create file") = true ∧
      fetch_params ⟨.response true (some 1) [7], false, true, true⟩
          [⟨.response true (some 1) [7], true, true, true⟩]
        = fetch_params ⟨.response true (some 1) [7], true, true, true⟩ [] ∧
      get_params (fun _ => "") ⟨none, none⟩ (fun _ => .failure "down" none) "/d" true
          (.error "bad json") .All ⟨[], 0, []⟩
        = (.error "bad json", ⟨[], 0, []⟩)) :=
  ⟨by decide,
    retry_classification ⟨.response true (some 1) [7], false, true, true⟩
      ⟨.response true (some 1) [7], true, true, true⟩ [] (.fsCreate "could not create file")
      (fun _ => "") ⟨none, none⟩ (fun _ => .failure "down" none) "/d" "bad json" .All
      ⟨[], 0, []⟩ (by decide)⟩

theorem fvp_of_check_ok (hashHex : FileContent → String) (env : Env)
    (net : String → FetchResult) (dd name : String) (info : ParameterData) (st : RunState)
    (h : (check_file hashHex env.trustEnv (fsGet st.fs (entryPath env dd name)) info).1
      = .ok ()) :
    fetch_verify_params hashHex env net dd name info st =
      (.ok (), { st with warnings := st.warnings ++
        (check_file hashHex env.trustEnv (fsGet st.fs (entryPath env dd name)) info).2 }) := by
  simp only [fetch_verify_params, h]

theorem fvp_fsGet_other (hashHex : FileContent → String) (env : Env)
    (net : String → FetchResult) (dd name : String) (info : ParameterData) (st : RunState)
    (p : String) (hp : p ≠ entryPath env dd name) :
    fsGet (fetch_verify_params hashHex env net dd name info st).2.fs p = fsGet st.fs p := by
  have hne : entryPath env dd name ≠ p := fun he => hp he.symm
  simp only [fetch_verify_params]
  rcases hc : (check_file hashHex env.trustEnv (fsGet st.fs (entryPath env dd name)) info).1
    with e | u
  · rcases hn : net info.cid with body | ⟨m, written⟩
    · simp only [apply_ite RunState.fs, ite_self]
      rcases hc2 : (check_file hashHex env.trustEnv
          (fsGet (fsSet st.fs (entryPath env dd name) body) (entryPath env dd name)) info).1
        with e2 | u2 <;>
        simp [fsGet_fsSet_other _ _ _ _ hne]
    · rcases written with _ | b
      · dsimp only
        split <;> rfl
      · dsimp only
        split <;> simp [fsGet_fsSet_other _ _ _ _ hne]
  · rfl

theorem fvp_ok_check_ok (hashHex : FileContent → String) (env : Env)
    (net : String → FetchResult) (dd name : String) (info : ParameterData) (st : RunState)
    (h : (fetch_verify_params hashHex env net dd name info st).1 = .ok ()) :
    (check_file hashHex env.trustEnv
        (fsGet (fetch_verify_params hashHex env net dd name info st).2.fs
          (entryPath env dd name)) info).1 = .ok () := by
  revert h
  simp only [fetch_verify_params]
  rcases hc : (check_file hashHex env.trustEnv (fsGet st.fs (entryPath env dd name)) info).1
    with e | u
  · rcases hn : net info.cid with body | ⟨m, written⟩
    · simp only [fsGet_fsSet_self]
      rcases hc2 : (check_file hashHex env.trustEnv (some body) info).1 with e2 | u2
      · intro hcontra
        simp at hcontra
      · intro _
        simp only [fsGet_fsSet_self]
        exact hc2
    · rcases written with _ | b <;> intro hcontra <;> simp at hcontra
  · intro _
    exact hc

theorem fvp_trust (hashHex : FileContent → String) (env : Env)
    (net : String → FetchResult) (dd name : String) (info : ParameterData) (st : RunState)
    (h : env.trustEnv = some "1") :
    fetch_verify_params hashHex env net dd name info st =
      (.ok (), { st with warnings := st.warnings ++ [TRUST_WARN] }) := by
  have hc : check_file hashHex env.trustEnv (fsGet st.fs (entryPath env dd name)) info
      = (.ok (), [TRUST_WARN]) := by
    rw [h]
    exact check_file_trust_eq hashHex _ info
  have h1 : (check_file hashHex env.trustEnv (fsGet st.fs (entryPath env dd name)) info).1
      = .ok () := by rw [hc]
  have h2 : (check_file hashHex env.trustEnv (fsGet st.fs (entryPath env dd name)) info).2
      = [TRUST_WARN] := by rw [hc]
  rw [fvp_of_check_ok hashHex env net dd name info st h1, h2]

theorem runTasks_fsGet_other (hashHex : FileContent → String) (env : Env)
    (net : String → FetchResult) (dd : String) (p : String) :
    ∀ (entries : List (String × ParameterData)) (st : RunState),
    (∀ e ∈ entries, p ≠ entryPath env dd e.1) →
    fsGet (runTasks hashHex env net dd entries st).2.fs p = fsGet st.fs p := by
  intro entries
  induction entries with
  | nil => intro st _; rfl
  | cons head rest ih =>
    intro st hp
    obtain ⟨name, info⟩ := head
    simp only [runTasks]
    rw [ih _ fun e he => hp e (List.mem_cons_of_mem _ he)]
    exact fvp_fsGet_other hashHex env net dd name info st p (hp _ (List.mem_cons_self _ _))

theorem runTasks_ok_valid (hashHex : FileContent → String) (env : Env)
    (net : String → FetchResult) (dd : String) :
    ∀ (entries : List (String × ParameterData)) (st : RunState),
    (entries.map fun e => entryPath env dd e.1).Nodup →
    (∀ r ∈ (runTasks hashHex env net dd entries st).1, r = .ok ()) →
    ∀ ei ∈ entries,
      (check_file hashHex env.trustEnv
        (fsGet (runTasks hashHex env net dd entries st).2.fs (entryPath env dd ei.1)) ei.2).1
        = .ok () := by
  intro entries
  induction entries with
  | nil => intro st _ _ ei hei; cases hei
  | cons head rest ih =>
    intro st hnd hok ei hei
    obtain ⟨name, info⟩ := head
    rw [List.map_cons, List.nodup_cons] at hnd
    simp only [runTasks] at hok ⊢
    have hok_head : (fetch_verify_params hashHex env net dd name info st).1 = .ok () :=
      hok _ (List.mem_cons_self _ _)
    have hok_rest : ∀ r ∈ (runTasks hashHex env net dd rest
        (fetch_verify_params hashHex env net dd name info st).2).1, r = .ok () :=
      fun r hr => hok r (List.mem_cons_of_mem _ hr)
    rcases List.mem_cons.mp hei with hei | hei
    · subst hei
      rw [runTasks_fsGet_other hashHex env net dd (entryPath env dd name) rest _
        fun e he heq => hnd.1 (heq ▸ List.mem_map_of_mem _ he)]
      exact fvp_ok_check_ok hashHex env net dd name info st hok_head
    · exact ih _ hnd.2 hok_rest ei hei

theorem runTasks_valid_noop (hashHex : FileContent → String) (env : Env)
    (net : String → FetchResult) (dd : String) :
    ∀ (entries : List (String × ParameterData)) (st : RunState),
    (∀ ei ∈ entries,
      (check_file hashHex env.trustEnv (fsGet st.fs (entryPath env dd ei.1)) ei.2).1 = .ok ()) →
    (∀ r ∈ (runTasks hashHex env net dd entries st).1, r = .ok ()) ∧
    (runTasks hashHex env net dd entries st).2.fs = st.fs ∧
    (runTasks hashHex env net dd entries st).2.fetches = st.fetches := by
  intro entries
  induction entries with
  | nil =>
    intro st _
    exact ⟨fun r hr => absurd hr (List.not_mem_nil r), rfl, rfl⟩
  | cons head rest ih =>
    intro st hval
    obtain ⟨name, info⟩ := head
    have hhead := hval (name, info) (List.mem_cons_self _ _)
    have heq := fvp_of_check_ok hashHex env net dd name info st hhead
    have hrest := ih { st with warnings := st.warnings ++
        (check_file hashHex env.trustEnv (fsGet st.fs (entryPath env dd name)) info).2 }
      (fun ei hei => hval ei (List.mem_cons_of_mem _ hei))
    simp only [runTasks, heq]
    refine ⟨?_, hrest.2.1, hrest.2.2⟩
    intro r hr
    rcases List.mem_cons.mp hr with hr | hr
    · exact hr
    · exact hrest.1 r hr

theorem collectErrors_eq_nil (results : List (Except String Unit)) :
    collectErrors results = [] := by
  induction results with
  | nil => rfl
  | cons r rest ih => simp [collectErrors, awaitTask] at ih ⊢

theorem filter_all (params : List (String × ParameterData)) :
    params.filter (fun p => selectEntry .All p.1 p.2) = params := by
  simp [selectEntry]

theorem get_params_result (hashHex : FileContent → String) (env : Env)
    (net : String → FetchResult) (dd : String) (params : List (String × ParameterData))
    (policy : SectorSizeOpt) (st : RunState) :
    (get_params hashHex env net dd true (.ok params) policy st).1 = .ok () ∧
    (get_params hashHex env net dd true (.ok params) policy st).2 =
      (runTasks hashHex env net dd (params.filter fun p => selectEntry policy p.1 p.2) st).2 := by
  simp [get_params, collectErrors_eq_nil]

/-- C1 (code bug): `get_params` collects errors with
`for t in tasks { if let Err(err) = t.await { errors.push(err); } }`, which
pushes only join-level errors (task panics); the task's own
`fetch_verify_params` failure sits inside the `Ok` of `t.await` and is
discarded. In the concrete two-failing-one-succeeding scenario the three
tasks report `[ok, error, error]`, yet `get_params` returns success with an
empty error collection instead of the aggregated error the claim requires. -/
theorem aggregation_swallows_errors :
    (runTasks (fun c => if c = [1] then "0123456789abcdef0123456789abcdef" else "ffff")
        ⟨none, none⟩ (fun c => .failure ("network down: " ++ c) none) "/d"
        [("a.vk", ⟨"Qm1", "0123456789abcdef0123456789abcdef", 0⟩),
         ("b.params", ⟨"Qm2", "11111111111111111111111111111111", 512⟩),
         ("c.params", ⟨"Qm3", "22222222222222222222222222222222", 512⟩)]
        ⟨[("/d/filecoin-proof-parameters/a.vk", [1])], 0, []⟩).1
      = [.ok (), .error "network down: Qm2", .error "network down: Qm3"] ∧
    collectErrors [.ok (), .error "network down: Qm2", .error "network down: Qm3"] = [] ∧
    (get_params (fun c => if c = [1] then "0123456789abcdef0123456789abcdef" else "ffff")
        ⟨none, none⟩ (fun c => .failure ("network down: " ++ c) none) "/d" true
        (.ok [("a.vk", ⟨"Qm1", "0123456789abcdef0123456789abcdef", 0⟩),
              ("b.params", ⟨"Qm2", "11111111111111111111111111111111", 512⟩),
              ("c.params", ⟨"Qm3", "22222222222222222222222222222222", 512⟩)])
        .All ⟨[("/d/filecoin-proof-parameters/a.vk", [1])], 0, []⟩).1
      = .ok () := by
  refine ⟨by decide, by decide, by decide⟩

/-- C6: when `TRUST_PARAMS` is the literal `"1"`, `check_file` skips
verification and succeeds unconditionally, logging the bypass warning every
time, and a fetch-verify task succeeds even when the file's content does not
match its digest; when the variable is unset the bypass is never taken — a
present file whose truncated hash differs from the digest is rejected. -/
theorem trust_bypass_skips_verification (hashHex : FileContent → String)
    (file : Option FileContent) (info : ParameterData)
    (content : FileContent) (i2 : ParameterData) (net : String → FetchResult)
    (de : Option String) (dd name : String) (st : RunState)
    (hbad : stringTake (hashHex content) 32 ≠ i2.digest) :
    check_file hashHex (some "1") file info = (.ok (), [TRUST_WARN]) ∧
    (fetch_verify_params hashHex ⟨de, some "1"⟩ net dd name i2 st).1 = .ok () ∧
    (check_file hashHex none (some content) i2).1 ≠ .ok () := by
  refine ⟨check_file_trust_eq hashHex file info, ?_, ?_⟩
  · rw [fvp_trust hashHex ⟨de, some "1"⟩ net dd name i2 st rfl]
  · intro hcontra
    exact hbad ((check_file_no_trust hashHex none content i2 (by simp)).mp hcontra)

/-- C6 witness: the mismatch hypothesis discharged at a concrete hash
function whose output differs from the digest. -/
theorem trust_bypass_skips_verification_witness :
    stringTake ((fun (_ : FileContent) => "ffff") [2]) 32
      ≠ (ParameterData.mk "Qm" "aaaa" 0).digest ∧
    (check_file (fun _ => "ffff") (some "1") (some [2]) ⟨"Qm", "aaaa", 0⟩
        = (.ok (), [TRUST_WARN]) ∧
      (fetch_verify_params (fun _ => "ffff") ⟨none, some "1"⟩
          (fun _ => .failure "down" none) "/d" "a" ⟨"Qm", "aaaa", 0⟩ ⟨[], 0, []⟩).1 = .ok () ∧
      (check_file (fun _ => "ffff") none (some [2]) ⟨"Qm", "aaaa", 0⟩).1 ≠ .ok ()) :=
  ⟨by decide,
    trust_bypass_skips_verification (fun _ => "ffff") (some [2]) ⟨"Qm", "aaaa", 0⟩ [2]
      ⟨"Qm", "aaaa", 0⟩ (fun _ => .failure "down" none) none "/d" "a" ⟨[], 0, []⟩ (by decide)⟩

/-- C7: a fetch-verify task whose file already checks out performs no fetch
and succeeds; consequently, after a run in which every selected entry's task
succeeded, a second run over the same entries (each owning its distinct
path) succeeds with no fetches, and a second `get_params` over the full
manifest returns success with the fetch count unchanged. -/
theorem valid_cache_no_network (hashHex : FileContent → String) (env : Env)
    (net : String → FetchResult) (dd : String)
    (entries : List (String × ParameterData)) (st : RunState)
    (hnd : (entries.map fun e => entryPath env dd e.1).Nodup)
    (hok : ∀ r ∈ (runTasks hashHex env net dd entries st).1, r = .ok ()) :
    (∀ (name : String) (info : ParameterData) (st' : RunState),
      (check_file hashHex env.trustEnv (fsGet st'.fs (entryPath env dd name)) info).1
          = .ok () →
        (fetch_verify_params hashHex env net dd name info st').1 = .ok () ∧
        (fetch_verify_params hashHex env net dd name info st').2.fetches = st'.fetches) ∧
    (∀ r ∈ (runTasks hashHex env net dd entries
        (runTasks hashHex env net dd entries st).2).1, r = .ok ()) ∧
    (runTasks hashHex env net dd entries (runTasks hashHex env net dd entries st).2).2.fetches
      = (runTasks hashHex env net dd entries st).2.fetches ∧
    (get_params hashHex env net dd true (.ok entries) .All
        (runTasks hashHex env net dd entries st).2).1 = .ok () ∧
    (get_params hashHex env net dd true (.ok entries) .All
        (runTasks hashHex env net dd entries st).2).2.fetches
      = (runTasks hashHex env net dd entries st).2.fetches := by
  have hvalid := runTasks_ok_valid hashHex env net dd entries st hnd hok
  have hnoop := runTasks_valid_noop hashHex env net dd entries
    (runTasks hashHex env net dd entries st).2 hvalid
  have hgp := get_params_result hashHex env net dd entries .All
    (runTasks hashHex env net dd entries st).2
  rw [filter_all] at hgp
  refine ⟨?_, hnoop.1, hnoop.2.2, hgp.1, ?_⟩
  · intro name info st' hck
    rw [fvp_of_check_ok hashHex env net dd name info st' hck]
    exact ⟨rfl, rfl⟩
  · rw [hgp.2]
    exact hnoop.2.2

/-- C7 witness: hypotheses discharged at a one-entry manifest whose file is
already present and matching; the second run reports success for the entry. -/
theorem valid_cache_no_network_witness :
    (([("a.vk", ParameterData.mk "Qm1" "0123456789abcdef0123456789abcdef" 0)].map
      fun e => entryPath ⟨none, none⟩ "/d" e.1).Nodup) ∧
    (∀ r ∈ (runTasks (fun c => if c = [1] then "0123456789abcdef0123456789abcdef" else "ffff")
        ⟨none, none⟩ (fun c => .failure ("down: " ++ c) none) "/d"
        [("a.vk", ⟨"Qm1", "0123456789abcdef0123456789abcdef", 0⟩)]
        ⟨[("/d/filecoin-proof-parameters/a.vk", [1])], 0, []⟩).1, r = .ok ()) ∧
    (∀ r ∈ (runTasks (fun c => if c = [1] then "0123456789abcdef0123456789abcdef" else "ffff")
        ⟨none, none⟩ (fun c => .failure ("down: " ++ c) none) "/d"
        [("a.vk", ⟨"Qm1", "0123456789abcdef0123456789abcdef", 0⟩)]
        (runTasks (fun c => if c = [1] then "0123456789abcdef0123456789abcdef" else "ffff")
          ⟨none, none⟩ (fun c => .failure ("down: " ++ c) none) "/d"
          [("a.vk", ⟨"Qm1", "0123456789abcdef0123456789abcdef", 0⟩)]
          ⟨[("/d/filecoin-proof-parameters/a.vk", [1])], 0, []⟩).2).1, r = .ok ()) :=
  ⟨by decide, by decide,
    (valid_cache_no_network (fun c => if c = [1] then "0123456789abcdef0123456789abcdef" else "ffff")
      ⟨none, none⟩ (fun c => .failure ("down: " ++ c) none) "/d"
      [("a.vk", ⟨"Qm1", "0123456789abcdef0123456789abcdef", 0⟩)]
      ⟨[("/d/filecoin-proof-parameters/a.vk", [1])], 0, []⟩
      (by decide) (by decide)).2.1⟩

/-- C10: with `TRUST_PARAMS="1"` the bypass precedes any file access: a
fetch-verify task for an entry whose file is absent still succeeds with no
fetch and no file created, and `get_params` succeeds leaving the file system
and the fetch count unchanged. -/
theorem trust_bypass_leaves_cache_unchanged (hashHex : FileContent → String) (env : Env)
    (net : String → FetchResult) (dd name : String) (info : ParameterData)
    (params : List (String × ParameterData)) (policy : SectorSizeOpt) (st : RunState)
    (h : env.trustEnv = some "1")
    (habsent : fsGet st.fs (entryPath env dd name) = none) :
    (fetch_verify_params hashHex env net dd name info st).1 = .ok () ∧
    (fetch_verify_params hashHex env net dd name info st).2.fs = st.fs ∧
    (fetch_verify_params hashHex env net dd name info st).2.fetches = st.fetches ∧
    (get_params hashHex env net dd true (.ok params) policy st).1 = .ok () ∧
    (get_params hashHex env net dd true (.ok params) policy st).2.fs = st.fs ∧
    (get_params hashHex env net dd true (.ok params) policy st).2.fetches = st.fetches := by
  have hfvp := fvp_trust hashHex env net dd name info st h
  have hval : ∀ ei ∈ (params.filter fun p => selectEntry policy p.1 p.2),
      (check_file hashHex env.trustEnv (fsGet st.fs (entryPath env dd ei.1)) ei.2).1
        = .ok () := by
    intro ei _
    rw [h, check_file_trust_eq]
  have hnoop := runTasks_valid_noop hashHex env net dd
    (params.filter fun p => selectEntry policy p.1 p.2) st hval
  have hgp := get_params_result hashHex env net dd params policy st
  refine ⟨by rw [hfvp], by rw [hfvp], by rw [hfvp], hgp.1, ?_, ?_⟩
  · rw [hgp.2]
    exact hnoop.2.1
  · rw [hgp.2]
    exact hnoop.2.2

/-- C10 witness: hypotheses discharged with the trust flag set and an empty
cache directory (the entry's file absent). -/
theorem trust_bypass_leaves_cache_unchanged_witness :
    (Env.mk none (some "1")).trustEnv = some "1" ∧
    fsGet (RunState.mk [] 0 []).fs (entryPath ⟨none, some "1"⟩ "/d" "a.vk") = none ∧
    ((fetch_verify_params (fun _ => "") ⟨none, some "1"⟩ (fun _ => .failure "down" none)
        "/d" "a.vk" ⟨"Qm1", "00000000000000000000000000000000", 0⟩ ⟨[], 0, []⟩).1 = .ok () ∧
      (fetch_verify_params (fun _ => "") ⟨none, some "1"⟩ (fun _ => .failure "down" none)
        "/d" "a.vk" ⟨"Qm1", "00000000000000000000000000000000", 0⟩ ⟨[], 0, []⟩).2.fs = [] ∧
      (fetch_verify_params (fun _ => "") ⟨none, some "1"⟩ (fun _ => .failure "down" none)
        "/d" "a.vk" ⟨"Qm1", "00000000000000000000000000000000", 0⟩ ⟨[], 0, []⟩).2.fetches = 0 ∧
      (get_params (fun _ => "") ⟨none, some "1"⟩ (fun _ => .failure "down" none) "/d" true
        (.ok [("a.vk", ⟨"Qm1", "00000000000000000000000000000000", 0⟩)]) .All
        ⟨[], 0, []⟩).1 = .ok () ∧
      (get_params (fun _ => "") ⟨none, some "1"⟩ (fun _ => .failure "down" none) "/d" true
        (.ok [("a.vk", ⟨"Qm1", "00000000000000000000000000000000", 0⟩)]) .All
        ⟨[], 0, []⟩).2.fs = [] ∧
      (get_params (fun _ => "") ⟨none, some "1"⟩ (fun _ => .failure "down" none) "/d" true
        (.ok [("a.vk", ⟨"Qm1", "00000000000000000000000000000000", 0⟩)]) .All
        ⟨[], 0, []⟩).2.fetches = 0) :=
  ⟨rfl, by decide,
    trust_bypass_leaves_cache_unchanged (fun _ => "") ⟨none, some "1"⟩
      (fun _ => .failure "down" none) "/d" "a.vk" ⟨"Qm1", "00000000000000000000000000000000", 0⟩
      [("a.vk", ⟨"Qm1", "00000000000000000000000000000000", 0⟩)] .All ⟨[], 0, []⟩
      rfl (by decide)⟩

end Paramfetch
